import Mathlib

/-!
Verification development for the `contaix` aggregation pipeline.

The Python sources are shallowly embedded:
an ordered mapping (a `dol` store, a `dict`) becomes a `List (String × String)`
of key/value pairs in iteration order; Python strings become Lean `String`s
(logically a `List Char`, matching CPython's sequence-of-characters model);
fallible code returns `Except String`; filesystem and import-system effects are
passed in explicitly as an environment of oracle functions.
-/

namespace Contaix

/-- An ordered key/value store: the entries of a Python mapping in iteration
order.  Keys are relative file names, values are text contents. -/
abbrev Store := List (String × String)

/-- Python slicing `v[:n]` on a string, where `n` may be `None`
(`v[:None]` is `v` itself) — the `value_decoder` used for the character cap
in `aggregate_store` (aggregation.py line 52/54). -/
def pyslice : Option Nat → String → String
  | none, v => v
  | some n, v => String.mk (v.data.take n)

/-- Bool test that `sub` occurs as a contiguous substring of `s`
(Python `sub in s` on strings). -/
def strContainsSub (s sub : String) : Bool :=
  (List.range (s.data.length + 1)).any (fun i => sub.data.isPrefixOf (s.data.drop i))

/-- Python `s.endswith(suffix)`: the characters of `suffix` are a suffix of
the characters of `s`. -/
def str_endswith (s suffix : String) : Bool :=
  suffix.data.isSuffixOf s.data

/-- Python `s.strip()`: drop leading and trailing whitespace characters. -/
def pystrip (s : String) : String :=
  String.mk (((s.data.dropWhile Char.isWhitespace).reverse.dropWhile
    Char.isWhitespace).reverse)

/-- Embedding of `dol.filt_iter(filt=p)` applied to a store: keeps exactly the
entries whose key satisfies the predicate, preserving order. -/
def filt_iter (p : String → Bool) (store : Store) : Store :=
  store.filter (fun kv => p kv.1)

/-- Embedding of `dol.wrap_kvs(value_decoder=f)` applied to a store: rewrites
every value by `f`, leaving keys and order unchanged. -/
def wrap_kvs (f : String → String) (store : Store) : Store :=
  store.map (fun kv => (kv.1, f kv.2))

/-- Embedding of `dol.Pipe(f, g, h)`: left-to-right composition of three
store-to-store wrappers (aggregation.py lines 57-61). -/
def Pipe3 (f g h : Store → Store) : Store → Store :=
  fun s => h (g (f s))

/-- The `wrappers` list built by `aggregate_store` (aggregation.py lines
33-52), one `Unit` per appended wrapper.  The first append (line 35-36) is
guarded by `exclude is not None`, which is always true because `exclude` was
normalized to `set()` on line 30-31; the second (line 51-52) fires when
`max_num_characters` is set. -/
def aggregate_store_wrappers (maxChars : Option Nat) : List Unit :=
  [()] ++ (if maxChars.isSome then [()] else [])

/-- The `remove_duplicate_lines` wrapper of `aggregate_store` (aggregation.py
lines 38-49): when `min_number_of_duplicated_lines` is set it rewrites each
value with the external `hg.deduplicate_string_lines` collaborator (passed in
here as the function `dedup`, taking the threshold and the value); otherwise
it is `identity`. -/
def remove_duplicate_lines (dedup : Nat → String → String) :
    Option Nat → Store → Store
  | some n => wrap_kvs (dedup n)
  | none => fun s => s

/-- The store-wrapping stage of `aggregate_store` (aggregation.py lines 30-65):
normalizes `exclude`, builds the `wrappers` list, and — since that list is
never empty — pipes the store through the suffix/exclusion filter
(line 58), the deduplication wrapper (line 59) and the character cap
(line 60), producing `wrapped_store`. -/
def aggregate_store_wrapped (dedup : Nat → String → String)
    (minDup maxChars : Option Nat) (exclude? : Option (List String))
    (store : Store) : Store :=
  let exclude := exclude?.getD []
  let wrappers := aggregate_store_wrappers maxChars
  if wrappers.length > 0 then
    Pipe3
      (filt_iter (fun x => str_endswith x ".md" && !(exclude.contains x)))
      (remove_duplicate_lines dedup minDup)
      (wrap_kvs (pyslice maxChars))
      store
  else store

/-- Fuel-based worker for `chunk_iterable`; `fuel` is initialized to the list
length, which suffices for any positive chunk size `n`.  The `fuel = 0` row is
unreachable under that initialization and only serves totality. -/
def chunk_go (n : Nat) : Nat → Store → List Store
  | _, [] => []
  | 0, l => [l]
  | fuel + 1, l => l.take n :: chunk_go n fuel (l.drop n)

/-- Modelled from the spec: the external `lkj.chunking.chunk_iterable`
collaborator applied to a mapping — it partitions the entries into consecutive
groups of `n` in iteration order, the final group possibly smaller (spec §4.3).
Every caller in the spec uses a positive chunk size. -/
def chunk_iterable (l : Store) (n : Nat) : List Store :=
  chunk_go n l.length l

/-- A Python value passed as the `egress` argument of `aggregate_store`:
`None`, a string, or a callable (in the chunked path the callable is applied
to the 1-based chunk index to produce a file name). -/
inductive PyEgress
  | pynone
  | pystr (t : String)
  | pyfn (f : Nat → String)

/-- Model of the bound method `template.format` for the two-digit index
templates used by `aggregate_store`: replaces the `{:02d}` placeholder
(written here with escaped braces) with the zero-padded index. -/
def format_02d (t : String) (i : Nat) : String :=
  t.replace "\x7b:02d\x7d" (if i < 10 then "0" ++ toString i else toString i)

/-- Calling a Python value as a function of the chunk index: only an actual
callable succeeds; calling a string or `None` raises a `TypeError`. -/
def py_call_egress : PyEgress → Nat → Except String String
  | .pyfn f, i => .ok (f i)
  | .pystr _, _ => .error "TypeError: str object is not callable"
  | .pynone, _ => .error "TypeError: NoneType object is not callable"

/-- Modelled from the spec: the external `dol.store_aggregate` collaborator
(spec §4.4 and the doctest of `code_aggregate`): each `(key, value)` entry is
formatted by `kv_to_item` and the fragments are joined with the fixed
two-newline separator; egress routing (§4.5) is applied by the callers. -/
def store_aggregate (kv_to_item : String → String → String) (entries : Store) : String :=
  String.intercalate "\n\n" (entries.map (fun kv => kv_to_item kv.1 kv.2))

/-- The chunked branch of `aggregate_store` (aggregation.py lines 67-82):
a string egress is first replaced by its bound `.format` method (lines 67-69);
the wrapped store is chunked (line 78); then line 79-80 replaces any non-None
egress with the literal default template string, and line 81-82 calls
`egress(i)` for each 1-based chunk index and hands each chunk to
`store_aggregate` with the produced file name as egress.  The result models
the list of `(file name, document)` writes performed, or the raised exception. -/
def aggregate_store_chunked (dedup : Nat → String → String)
    (minDup maxChars : Option Nat) (exclude? : Option (List String))
    (kv_to_item : String → String → String)
    (store : Store) (chk : Nat) (egress0 : PyEgress) :
    Except String (List (String × String)) :=
  let wrapped := aggregate_store_wrapped dedup minDup maxChars exclude? store
  let egress1 := match egress0 with
    | .pystr t => PyEgress.pyfn (format_02d t)
    | e => e
  let chunks := chunk_iterable wrapped chk
  let egress2 := match egress1 with
    | .pynone => PyEgress.pynone
    | _ => PyEgress.pystr "store_aggregate_\x7b:02.0f\x7d.md"
  chunks.enum.mapM (fun ic =>
    (py_call_egress egress2 (ic.1 + 1)).map
      (fun fname => (fname, store_aggregate kv_to_item ic.2)))

/-- A Python module object, as probed by code.py: its `__file__` attribute and
its `__path__` attribute (the list of package root directories), plus its
`repr`, used when it appears in an error message. -/
structure PyModule where
  file : Option String
  pathAttr : Option (List String)
  reprStr : String

/-- A value accepted as the `code_src` argument of `resolve_code_source`
(code.py): an explicit mapping, a module object, a string, or any other
object (of which only the `__path__` attribute and the `repr` are probed). -/
inductive CodeSource
  | mapping (m : Store)
  | module (mod : PyModule)
  | pystr (s : String)
  | obj (pathAttr : Option (List String)) (reprStr : String)

/-- The filesystem and import-system effects used by code.py, passed
explicitly: `os.path.isdir`, `os.path.abspath`, `os.path.normpath`,
`importlib.import_module` (`none` models an `ImportError`), the external
`hubcap.ensure_repo_folder` collaborator, `open(path).read()`,
the entries of `dol.TextFiles(rootdir)`, and `os.path.exists`. -/
structure Env where
  isdir : String → Bool
  abspath : String → String
  normpath : String → String
  importMod : String → Option PyModule
  ensureRepoFolder : String → String
  readFile : String → String
  textFiles : String → Store
  pathExists : String → Bool

/-- Embedding of `os.path.basename` for slash-separated paths. -/
def basename (p : String) : String :=
  (p.splitOn "/").getLastD p

/-- Embedding of `os.path.dirname` for slash-separated paths. -/
def dirname (p : String) : String :=
  String.intercalate "/" (p.splitOn "/").dropLast

/-- Embedding of `os.path.join(parent, child)` for the already-normalized
slash-separated paths produced by `dirname`. -/
def path_join (parent child : String) : String :=
  if parent = "" then child else parent ++ "/" ++ child

/-- The resolved content store: its entries in iteration order together with
the `rootdir` attribute that directory-backed `dol` stores expose (and plain
mappings lack, hence the `Option`). -/
structure ResolvedStore where
  entries : Store
  rootdir : Option String

/-- The `hasattr(code_src, "__path__")` tail of
`resolve_code_source_dir_path` (code.py lines 63-74): a present `__path__`
must hold exactly one root, which is resolved to its absolute path; otherwise
the final `ValueError` names the unresolvable input. -/
def resolve_dir_path_from_path_attr (env : Env)
    (pathAttr : Option (List String)) (reprStr : String) : Except String String :=
  match pathAttr with
  | some path_list =>
    if path_list.length = 1 then .ok (env.abspath (path_list.headD ""))
    else .error ("AssertionError: The __path__ attribute should contain exactly one path, but found: "
      ++ String.intercalate ", " path_list)
  | none => .error ("Unable to resolve code_src to a valid directory path: " ++ reprStr)

/-- Embedding of `resolve_code_source_dir_path` (code.py lines 27-74):
a string is tried as an existing directory, then as a newline-free
`github`-containing remote locator, then as an importable package name, and
otherwise raises `ValueError`; non-strings are probed for `__path__`. -/
def resolve_code_source_dir_path (env : Env) : CodeSource → Except String String
  | .pystr s =>
    if env.isdir s then .ok (env.abspath s)
    else if !strContainsSub s "\n" && strContainsSub s "github" then
      .ok (env.ensureRepoFolder s)
    else
      match env.importMod s with
      | some mod => resolve_dir_path_from_path_attr env mod.pathAttr mod.reprStr
      | none => .error ("Unsupported string format or non-directory: " ++ s)
  | .module mod => resolve_dir_path_from_path_attr env mod.pathAttr mod.reprStr
  | .mapping _ =>
    resolve_dir_path_from_path_attr env none "<mapping>"
  | .obj pathAttr reprStr => resolve_dir_path_from_path_attr env pathAttr reprStr

/-- The tail of `resolve_code_source` (code.py lines 112-118): a mapping is
returned unchanged (with no `rootdir` attribute); anything else is resolved to
a root directory and enumerated as
`cached_keys(filt_iter(TextFiles(rootdir), filt=keys_filt), keys_cache=sorted)`
— the directory's text files filtered by the key predicate with keys sorted —
a store that exposes the root as its `rootdir` attribute. -/
def resolve_code_source_from_shape (env : Env) (keysFilt : String → Bool) :
    CodeSource → Except String ResolvedStore
  | .mapping m => .ok ⟨m, none⟩
  | s =>
    (resolve_code_source_dir_path env s).map (fun rootdir =>
      ⟨(filt_iter keysFilt (env.textFiles rootdir)).mergeSort
          (fun a b => decide (a.1 ≤ b.1)),
        some rootdir⟩)

/-- Embedding of `resolve_code_source` (code.py lines 77-118): a module object
or importable string naming a single-file module yields the one-entry mapping
`{basename(__file__): contents}`; an importable package string is replaced by
its module object; then mappings pass through and everything else goes through
directory resolution. -/
def resolve_code_source (env : Env) (keysFilt : String → Bool) :
    CodeSource → Except String ResolvedStore
  | .module mod =>
    if mod.file.isSome && mod.pathAttr.isNone then
      let path := env.abspath (mod.file.getD "")
      .ok ⟨[(basename path, env.readFile path)], none⟩
    else resolve_code_source_from_shape env keysFilt (.module mod)
  | .pystr s =>
    match env.importMod s with
    | none => resolve_code_source_from_shape env keysFilt (.pystr s)
    | some mod =>
      if mod.file.isSome && mod.pathAttr.isNone then
        let path := env.abspath (mod.file.getD "")
        .ok ⟨[(basename path, env.readFile path)], none⟩
      else resolve_code_source_from_shape env keysFilt (.module mod)
  | .mapping m => resolve_code_source_from_shape env keysFilt (.mapping m)
  | .obj p r => resolve_code_source_from_shape env keysFilt (.obj p r)

/-- Embedding of `_readme_from_parent_dir` (code.py lines 124-135): when the
store exposes a `rootdir`, look for `README.md` in its parent directory and
return its contents; otherwise return `None`. -/
def readme_from_parent_dir (env : Env) (code_store : ResolvedStore) : Option String :=
  match code_store.rootdir with
  | some rootdir =>
    let parent_dir := dirname (env.normpath rootdir)
    let readme_path := path_join parent_dir "README.md"
    if env.pathExists readme_path then some (env.readFile readme_path) else none
  | none => none

/-- Embedding of `ChainMap(code_store, {k: v})` as iterated by code.py
lines 219-223: per `ChainMap.__iter__`, the key union is built from the maps
in reverse order, so `k` comes first and the base's other keys follow in their
own order; value lookup consults the base first, so a base entry for `k`
shadows the overlay value. -/
def chainMap_overlay (base : Store) (k v : String) : Store :=
  (k, (((base.find? (fun kv => kv.1 == k)).map Prod.snd).getD v))
    :: base.filter (fun kv => kv.1 != k)

/-- The default `kv_to_item` of `code_aggregate` (code.py line 142): a level-2
markdown heading holding the key, then a fenced python code block holding the
value stripped of leading and trailing whitespace. -/
def default_kv_to_item (k v : String) : String :=
  "## " ++ k ++ "\n\n```python\n" ++ pystrip v ++ "\n```"

/-- The README-enrichment step of `code_aggregate` (code.py lines 216-223):
when the `include_readme` callable is supplied (truthy) and returns truthy
(non-empty) content, the store handed to aggregation is the `ChainMap` overlay
placing a synthetic `README.md` entry first; otherwise it is the resolved
store's own entry list. -/
def code_aggregate_effective_store
    (include_readme : Option (ResolvedStore → Option String))
    (code_store : ResolvedStore) : Store :=
  match include_readme with
  | some f =>
    match f code_store with
    | some readme_content =>
      if readme_content != "" then
        chainMap_overlay code_store.entries "README.md" readme_content
      else code_store.entries
    | none => code_store.entries
  | none => code_store.entries

/-- Embedding of `code_aggregate` (code.py lines 138-226) with the identity
egress: resolve the source with the default `.py` key filter, optionally
overlay the parent-directory README, and aggregate with `kv_to_item`. -/
def code_aggregate (env : Env)
    (include_readme : Option (ResolvedStore → Option String))
    (kv_to_item : String → String → String)
    (src : CodeSource) : Except String String :=
  (resolve_code_source env (fun x => str_endswith x ".py") src).map (fun code_store =>
    store_aggregate kv_to_item (code_aggregate_effective_store include_readme code_store))

/-- The per-value view of the deduplication stage: the value rewrite performed
by `remove_duplicate_lines` on each stored value. -/
def dedup_value (dedup : Nat → String → String) : Option Nat → String → String
  | some n, v => dedup n v
  | none, v => v

/-- A five-entry markdown store, as in the chunking scenario of the spec. -/
def fiveEntryStore : Store :=
  [("doc1.md", "one"), ("doc2.md", "two"), ("doc3.md", "three"),
    ("doc4.md", "four"), ("doc5.md", "five")]

theorem wrap_kvs_all_key (f : String → String) (q : String → Bool) (s : Store) :
    (wrap_kvs f s).all (fun kv => q kv.1) = s.all (fun kv => q kv.1) := by
  simp [wrap_kvs, List.all_map, Function.comp_def]

theorem remove_duplicate_lines_all_key (dedup : Nat → String → String)
    (minDup : Option Nat) (q : String → Bool) (s : Store) :
    (remove_duplicate_lines dedup minDup s).all (fun kv => q kv.1)
      = s.all (fun kv => q kv.1) := by
  cases minDup <;> simp [remove_duplicate_lines, wrap_kvs_all_key]

/-- Claim C1 concerns this behaviour: with a five-entry store, `chk_size=2` and
the caller's string template `out_{:02d}.md`, the wrapped store does split into
chunks of sizes 2, 2, 1, but the chunked branch replaces the caller's egress
formatter with the plain default template string and then calls it, so the run
raises `TypeError: 'str' object is not callable` and writes no files at all. -/
theorem C1_chunked_string_egress_raises_type_error :
    (chunk_iterable
        (aggregate_store_wrapped (fun _ v => v) none none none fiveEntryStore) 2).map
        List.length = [2, 2, 1]
    ∧ aggregate_store_chunked (fun _ v => v) none none none (fun _ v => v)
        fiveEntryStore 2 (.pystr "out_\x7b:02d\x7d.md")
      = .error "TypeError: str object is not callable" :=
  ⟨rfl, rfl⟩

/-- Claim C2 concerns this behaviour: with `exclude`,
`min_number_of_duplicated_lines` and `max_num_characters` all unset, the store
is not passed on unchanged — the `.md` suffix filter still applies, so the
one-entry store whose key is `a.txt` is emptied by the wrapping stage. -/
theorem C2_unconfigured_pipeline_filters_non_md :
    aggregate_store_wrapped (fun _ v => v) none none none [("a.txt", "x")] = []
    ∧ ([("a.txt", "x")] : Store) ≠ [] :=
  ⟨rfl, by simp⟩

/-- Claim C3: on every call of `aggregate_store` — whatever the configuration —
the wrapper list is non-empty (because `exclude` is normalized before the
`exclude is not None` test), so the `.md` suffix filter is applied and every
entry of the wrapped store has a key ending in `.md`; a key not ending in
`.md` therefore never contributes to the aggregate. -/
theorem C3_suffix_filter_always_applied (dedup : Nat → String → String)
    (minDup maxChars : Option Nat) (exclude? : Option (List String)) (store : Store) :
    0 < (aggregate_store_wrappers maxChars).length
    ∧ (aggregate_store_wrapped dedup minDup maxChars exclude? store).all
        (fun kv => str_endswith kv.1 ".md") = true := by
  constructor
  · simp [aggregate_store_wrappers]
  · have hw : 0 < (aggregate_store_wrappers maxChars).length := by
      simp [aggregate_store_wrappers]
    simp only [aggregate_store_wrapped, if_pos hw, Pipe3]
    rw [wrap_kvs_all_key (pyslice maxChars) (fun x => str_endswith x ".md"),
      remove_duplicate_lines_all_key dedup minDup (fun x => str_endswith x ".md")]
    simp only [filt_iter, List.all_eq_true]
    intro kv hkv
    have hb := (List.mem_filter.mp hkv).2
    simp only [Bool.and_eq_true] at hb
    exact hb.1

/-- Claim C5: when both the deduplication threshold and the character cap are
configured (so that more than one transform is active), the wrapping stage is
exactly: filter by suffix and exclusion first, then rewrite each surviving
value by deduplication, then truncate — in particular deduplication always
receives the untruncated value. -/
theorem C5_transform_order_filter_dedup_cap (dedup : Nat → String → String)
    (d n : Nat) (exclude? : Option (List String)) (store : Store) :
    aggregate_store_wrapped dedup (some d) (some n) exclude? store
      = (store.filter
          (fun kv => str_endswith kv.1 ".md" && !((exclude?.getD []).contains kv.1))).map
          (fun kv => (kv.1, pyslice (some n) (dedup d kv.2))) := by
  have hw : 0 < (aggregate_store_wrappers (some n)).length := by
    simp [aggregate_store_wrappers]
  simp only [aggregate_store_wrapped, if_pos hw, Pipe3, remove_duplicate_lines,
    filt_iter, wrap_kvs, List.map_map]
  rfl

/-- Claim C8: the character-cap value transform truncates every value to at
most `n` characters, returns values already within the cap unchanged, and is
the identity when the cap is unset. -/
theorem C8_character_cap_bounds (n : Nat) (v : String) :
    (pyslice (some n) v).length ≤ n
    ∧ (v.length ≤ n → pyslice (some n) v = v)
    ∧ pyslice none v = v := by
  refine ⟨?_, ?_, rfl⟩
  · show (String.mk (v.data.take n)).length ≤ n
    have h1 : (String.mk (v.data.take n)).length = (v.data.take n).length := rfl
    rw [h1]
    exact List.length_take_le n v.data
  · intro h
    show String.mk (v.data.take n) = v
    obtain ⟨data⟩ := v
    have h2 : data.length ≤ n := h
    exact congrArg String.mk (List.take_of_length_le h2)

/-- Witness for C8 at a concrete value: a three-character cap applied to the
two-character value leaves it unchanged. -/
theorem C8_character_cap_bounds_witness : pyslice (some 3) "ab" = "ab" :=
  (C8_character_cap_bounds 3 "ab").2.1 (by decide)

/-- Claim C10: a plain mapping source (which carries no `rootdir` attribute)
aggregates, under the default configuration, to exactly its own entries in
insertion order — the default README enrichment finds nothing to prepend. -/
theorem C10_plain_mapping_exact_entries (env : Env) (m : Store) :
    code_aggregate env (some (readme_from_parent_dir env)) default_kv_to_item
        (.mapping m)
      = .ok (store_aggregate default_kv_to_item m) := rfl

/-- Claim C4: on the two-module mapping, `code_aggregate` with the default
formatter returns the two markdown sections — a level-2 heading with the key
and a fenced python block with the stripped value — joined by a blank line, in
insertion order. -/
theorem C4_default_formatter_scenario (env : Env) :
    code_aggregate env (some (readme_from_parent_dir env)) default_kv_to_item
        (.mapping [("module1.py", "def foo(): pass"), ("module2.py", "def bar(): pass")])
      = .ok ("## module1.py\n\n```python\ndef foo(): pass\n```\n\n## module2.py\n\n```python\ndef bar(): pass\n```") := rfl

theorem chunk_go_flatten (n : Nat) (hn : 0 < n) :
    ∀ (fuel : Nat) (l : Store), l.length ≤ fuel → (chunk_go n fuel l).flatten = l := by
  intro fuel
  induction fuel with
  | zero =>
    intro l hl
    have hnil : l = [] := List.eq_nil_of_length_eq_zero (Nat.le_zero.mp hl)
    subst hnil
    rfl
  | succ f ih =>
    intro l hl
    cases l with
    | nil => rfl
    | cons x xs =>
      show ((x :: xs).take n :: chunk_go n f ((x :: xs).drop n)).flatten = x :: xs
      rw [List.flatten_cons, ih]
      · exact List.take_append_drop n (x :: xs)
      · rw [List.length_drop]
        simp only [List.length_cons] at hl ⊢
        omega

theorem chunk_go_eq_nil_iff (n fuel : Nat) (l : Store) :
    chunk_go n fuel l = [] ↔ l = [] := by
  cases fuel <;> cases l <;> simp [chunk_go]

theorem chunk_go_length_le (n : Nat) (hn : 0 < n) :
    ∀ (fuel : Nat) (l : Store), l.length ≤ fuel →
      ∀ c ∈ chunk_go n fuel l, c.length ≤ n := by
  intro fuel
  induction fuel with
  | zero =>
    intro l hl c hc
    have hnil : l = [] := List.eq_nil_of_length_eq_zero (Nat.le_zero.mp hl)
    subst hnil
    simp [chunk_go] at hc
  | succ f ih =>
    intro l hl c hc
    cases l with
    | nil => simp [chunk_go] at hc
    | cons x xs =>
      have heq : chunk_go n (f + 1) (x :: xs)
          = (x :: xs).take n :: chunk_go n f ((x :: xs).drop n) := rfl
      rw [heq] at hc
      rcases List.mem_cons.mp hc with h | h
      · subst h
        exact List.length_take_le n (x :: xs)
      · refine ih ((x :: xs).drop n) ?_ c h
        rw [List.length_drop]
        simp only [List.length_cons] at hl ⊢
        omega

theorem chunk_go_dropLast_length (n : Nat) (hn : 0 < n) :
    ∀ (fuel : Nat) (l : Store), l.length ≤ fuel →
      ∀ c ∈ (chunk_go n fuel l).dropLast, c.length = n := by
  intro fuel
  induction fuel with
  | zero =>
    intro l hl c hc
    have hnil : l = [] := List.eq_nil_of_length_eq_zero (Nat.le_zero.mp hl)
    subst hnil
    simp [chunk_go] at hc
  | succ f ih =>
    intro l hl c hc
    cases l with
    | nil => simp [chunk_go] at hc
    | cons x xs =>
      have heq : chunk_go n (f + 1) (x :: xs)
          = (x :: xs).take n :: chunk_go n f ((x :: xs).drop n) := rfl
      rw [heq] at hc
      by_cases hrest : chunk_go n f ((x :: xs).drop n) = []
      · rw [hrest] at hc
        simp at hc
      · rw [List.dropLast_cons_of_ne_nil hrest] at hc
        rcases List.mem_cons.mp hc with h | h
        · subst h
          have hdne : (x :: xs).drop n ≠ [] :=
            fun hd => hrest ((chunk_go_eq_nil_iff n f _).mpr hd)
          have hlen : n < (x :: xs).length := by
            have hpos := List.length_pos.mpr hdne
            rw [List.length_drop] at hpos
            omega
          rw [List.length_take]
          omega
        · refine ih ((x :: xs).drop n) ?_ c h
          rw [List.length_drop]
          simp only [List.length_cons] at hl ⊢
          omega

/-- Claim C6: for every store and positive chunk size, the chunking stage
used by `aggregate_store` partitions the store: concatenating the chunks in
order reproduces the original entries in order, the chunk lengths sum to the
store's length, every chunk but the last has exactly the chunk size, and
every chunk (the last included) has at most the chunk size. -/
theorem C6_chunk_partition_properties (l : Store) (n : Nat) (hn : 0 < n) :
    (chunk_iterable l n).flatten = l
    ∧ ((chunk_iterable l n).map List.length).sum = l.length
    ∧ (∀ c ∈ (chunk_iterable l n).dropLast, c.length = n)
    ∧ (∀ c ∈ chunk_iterable l n, c.length ≤ n) := by
  have h1 : (chunk_iterable l n).flatten = l :=
    chunk_go_flatten n hn l.length l (Nat.le_refl _)
  refine ⟨h1, ?_, ?_, ?_⟩
  · calc ((chunk_iterable l n).map List.length).sum
        = (chunk_iterable l n).flatten.length := (List.length_flatten _).symm
      _ = l.length := by rw [h1]
  · exact chunk_go_dropLast_length n hn l.length l (Nat.le_refl _)
  · exact chunk_go_length_le n hn l.length l (Nat.le_refl _)

/-- Witness for C6 on the five-entry store with chunk size 2: the positivity
hypothesis holds and the flatten and length-sum conclusions are produced at
that input. -/
theorem C6_chunk_partition_properties_witness :
    0 < 2
    ∧ (chunk_iterable fiveEntryStore 2).flatten = fiveEntryStore
    ∧ ((chunk_iterable fiveEntryStore 2).map List.length).sum = fiveEntryStore.length :=
  ⟨by decide, (C6_chunk_partition_properties fiveEntryStore 2 (by decide)).1,
    (C6_chunk_partition_properties fiveEntryStore 2 (by decide)).2.1⟩

theorem resolve_code_source_dir_path_pystr (env : Env) (s : String) :
    resolve_code_source_dir_path env (.pystr s)
      = if env.isdir s then .ok (env.abspath s)
        else if !strContainsSub s "\n" && strContainsSub s "github" then
          .ok (env.ensureRepoFolder s)
        else
          match env.importMod s with
          | some mod => resolve_dir_path_from_path_attr env mod.pathAttr mod.reprStr
          | none => .error ("Unsupported string format or non-directory: " ++ s) := rfl

/-- Claim C7: a string source that is not an existing directory, not a
newline-free `github`-containing remote locator and not importable resolves
to the `ValueError` naming the unsupported input, and a non-mapping object
without a `__path__` attribute resolves to the `ValueError` naming it; neither
silently defaults. -/
theorem C7_unsupported_source_resolution_error (env : Env)
    (keysFilt : String → Bool) (s r : String)
    (h1 : env.importMod s = none) (h2 : env.isdir s = false)
    (h3 : strContainsSub s "\n" = true ∨ strContainsSub s "github" = false) :
    resolve_code_source env keysFilt (.pystr s)
        = .error ("Unsupported string format or non-directory: " ++ s)
    ∧ resolve_code_source env keysFilt (.obj none r)
        = .error ("Unable to resolve code_src to a valid directory path: " ++ r) := by
  have hcond : (!strContainsSub s "\n" && strContainsSub s "github") = false := by
    cases h3 with
    | inl h => simp [h]
    | inr h => simp [h]
  constructor
  · show (match env.importMod s with
      | none => resolve_code_source_from_shape env keysFilt (.pystr s)
      | some mod =>
        if mod.file.isSome && mod.pathAttr.isNone then
          let path := env.abspath (mod.file.getD "")
          .ok ⟨[(basename path, env.readFile path)], none⟩
        else resolve_code_source_from_shape env keysFilt (.module mod))
      = .error ("Unsupported string format or non-directory: " ++ s)
    rw [h1]
    show (resolve_code_source_dir_path env (.pystr s)).map _
      = .error ("Unsupported string format or non-directory: " ++ s)
    rw [resolve_code_source_dir_path_pystr, h2, hcond, h1]
    rfl
  · rfl

/-- Witness for C7 with an environment in which nothing is importable and no
directory exists, at the unsupported string `zzz` and an object of repr `X`. -/
theorem C7_unsupported_source_resolution_error_witness :
    resolve_code_source
        { isdir := fun _ => false
          abspath := fun p => p
          normpath := fun p => p
          importMod := fun _ => none
          ensureRepoFolder := fun p => p
          readFile := fun _ => ""
          textFiles := fun _ => []
          pathExists := fun _ => false }
        (fun x => str_endswith x ".py") (.pystr "zzz")
      = .error ("Unsupported string format or non-directory: " ++ "zzz")
    ∧ resolve_code_source
        { isdir := fun _ => false
          abspath := fun p => p
          normpath := fun p => p
          importMod := fun _ => none
          ensureRepoFolder := fun p => p
          readFile := fun _ => ""
          textFiles := fun _ => []
          pathExists := fun _ => false }
        (fun x => str_endswith x ".py") (.obj none "X")
      = .error ("Unable to resolve code_src to a valid directory path: " ++ "X") :=
  C7_unsupported_source_resolution_error _ _ "zzz" "X" rfl rfl (Or.inr (by decide))

/-- Claim C9: whenever the README-enrichment callable returns non-empty
content for the resolved store (whose entries do not already use the key
`README.md`), the store handed to aggregation is the synthetic `README.md`
entry followed by the resolved store's entries unchanged, and the aggregate
document is the README section followed by the original sections. -/
theorem C9_readme_overlay_first (f : ResolvedStore → Option String)
    (rs : ResolvedStore) (c : String) (kv_to_item : String → String → String)
    (h1 : f rs = some c) (h2 : c ≠ "")
    (h3 : ∀ kv ∈ rs.entries, kv.1 ≠ "README.md") :
    code_aggregate_effective_store (some f) rs = ("README.md", c) :: rs.entries
    ∧ store_aggregate kv_to_item (code_aggregate_effective_store (some f) rs)
        = String.intercalate "\n\n"
            (kv_to_item "README.md" c :: rs.entries.map (fun kv => kv_to_item kv.1 kv.2)) := by
  have hc : (c != "") = true := by
    simpa using h2
  have hfind : rs.entries.find? (fun kv => kv.1 == "README.md") = none := by
    rw [List.find?_eq_none]
    intro kv hkv
    simpa using h3 kv hkv
  have hfilt : rs.entries.filter (fun kv => kv.1 != "README.md") = rs.entries := by
    rw [List.filter_eq_self]
    intro kv hkv
    simpa using h3 kv hkv
  have he : code_aggregate_effective_store (some f) rs = ("README.md", c) :: rs.entries := by
    show (match f rs with
      | some readme_content =>
        if readme_content != "" then
          chainMap_overlay rs.entries "README.md" readme_content
        else rs.entries
      | none => rs.entries)
      = ("README.md", c) :: rs.entries
    rw [h1]
    show (if c != "" then chainMap_overlay rs.entries "README.md" c else rs.entries)
      = ("README.md", c) :: rs.entries
    rw [if_pos hc]
    unfold chainMap_overlay
    rw [hfind, hfilt]
    rfl
  refine ⟨he, ?_⟩
  rw [he]
  rfl

/-- Witness for C9: a one-entry resolved store and an enrichment callable
returning the non-empty content `hello` produce the overlaid store with the
synthetic README entry first. -/
theorem C9_readme_overlay_first_witness :
    code_aggregate_effective_store (some (fun _ => some "hello"))
        ⟨[("a.py", "x")], none⟩
      = ("README.md", "hello") :: [("a.py", "x")]
    ∧ store_aggregate default_kv_to_item
        (code_aggregate_effective_store (some (fun _ => some "hello"))
          ⟨[("a.py", "x")], none⟩)
      = String.intercalate "\n\n"
          (default_kv_to_item "README.md" "hello"
            :: [("a.py", "x")].map (fun kv => default_kv_to_item kv.1 kv.2)) :=
  C9_readme_overlay_first (fun _ => some "hello") ⟨[("a.py", "x")], none⟩ "hello"
    default_kv_to_item rfl (by decide) (by decide)

end Contaix
